import Mathlib

/-!
# Weather telemetry simulator: atmospheric engine and station sensor model

A shallow embedding of `publisher.cpp`.

* `float` and `double` values are modelled as exact rationals `ℚ`; rounding,
  infinities and NaN are outside the model.
* Each `while (true)` body is a pure step function.  The values the body takes
  from the random generator and from the wall clock are explicit arguments.
* `pow` comes from the C maths library and is a parameter of the station step.
-/

namespace Publisher

/-! ## Utilities -/

/-- The C++ `std::max(a, b)`: `(a < b) ? b : a`. -/
def std_max (a b : ℚ) : ℚ := if a < b then b else a

/-- The C++ `std::min(a, b)`: `(b < a) ? b : a`. -/
def std_min (a b : ℚ) : ℚ := if b < a then b else a

/-- The function `clamp` of `publisher.cpp`. -/
def clamp (val min_val max_val : ℚ) : ℚ :=
  std_max min_val (std_min val max_val)

/-! ## Global state -/

/-- The struct `EstadoGlobal`: the copy handed to the stations. -/
structure EstadoGlobal where
  presion : ℚ
  nubosidad : ℚ
  radiacion : ℚ
  tormenta : Bool
  ola_calor : Bool
  estacion_anio : String
  deriving DecidableEq, Repr

/-- The data fields of the struct `MotorGlobal` (the mutex is not data). -/
structure MotorGlobal where
  presion : ℚ
  nubosidad : ℚ
  radiacion : ℚ
  tormenta : Bool
  ola_calor : Bool
  estacion_anio : String
  deriving DecidableEq, Repr

/-- The method `MotorGlobal::snapshot`. -/
def MotorGlobal.snapshot (m : MotorGlobal) : EstadoGlobal :=
  { presion := m.presion, nubosidad := m.nubosidad, radiacion := m.radiacion,
    tormenta := m.tormenta, ola_calor := m.ola_calor, estacion_anio := m.estacion_anio }

/-- The struct `Estacion`. -/
structure Estacion where
  id : Int
  nombre : String
  region : String
  deriving DecidableEq, Repr

/-! ## Atmospheric engine: one iteration of `motor_global_thread` -/

/-- The local `estacion_año` of `motor_global_thread`, from the month `mes`. -/
def estacion_anio (mes : Int) : String :=
  if mes = 12 ∨ mes ≤ 2 then "invierno"
  else if mes ≥ 3 ∧ mes ≤ 5 then "primavera"
  else if mes ≥ 6 ∧ mes ≤ 8 then "verano"
  else "otoño"

/-- The local `rad_dia` of `motor_global_thread`, from the hour `hora`. -/
def rad_dia (hora : Int) : ℚ :=
  if hora ≥ 6 ∧ hora ≤ 18 then std_max 0 (1 - ((|12 - hora| : Int) : ℚ) / 6) else 0

/-- The values one iteration of `motor_global_thread` draws from the generator,
in the order of the draws. -/
structure MotorDraws where
  pres_delta : ℚ
  nub_delta : ℚ
  solar_delta : ℚ
  evento_ola : ℚ
  evento_tormenta : ℚ
  deriving DecidableEq, Repr

/-- One iteration of the loop of `motor_global_thread` at local hour `hora`
and month `mes`. -/
def motor_global_step (motor : MotorGlobal) (hora mes : Int) (g : MotorDraws) :
    MotorGlobal :=
  { estacion_anio := estacion_anio mes
    presion := clamp (motor.presion + g.pres_delta) 950 1050
    nubosidad := clamp (motor.nubosidad + g.nub_delta) 0 100
    radiacion := clamp (motor.radiacion + g.solar_delta) 0 (1200 * rad_dia hora)
    ola_calor := decide (g.evento_ola < 0.01)
    tormenta := decide (g.evento_tormenta < 0.02) }

/-! ## Station sensor model: one iteration of `station_thread` -/

/-- The locals of `station_thread` that live across iterations. -/
structure StationVars where
  temperatura : ℚ
  humedad : ℚ
  viento : ℚ
  direccion_viento : ℚ
  precipitacion : ℚ
  tendencia_temp : ℚ
  deriving DecidableEq, Repr

/-- The values one iteration of `station_thread` draws from the generator. -/
structure StationDraws where
  temp_delta : ℚ
  hum_delta : ℚ
  viento_delta : ℚ
  dir_delta : ℚ
  lluvia : ℚ
  deriving DecidableEq, Repr

/-- The local `ajuste_temp` after the region branches. -/
def ajuste_temp (region : String) : ℚ :=
  if region = "Litoral Urbano" then 0
  else if region = "Interior Seco" then 3
  else if region = "Alta Montaña" then -7
  else if region = "Pre-Pirineo" then -2
  else 0

/-- The local `ajuste_hum` after the region branches. -/
def ajuste_hum (region : String) : ℚ :=
  if region = "Litoral Urbano" then 10
  else if region = "Interior Seco" then -10
  else if region = "Alta Montaña" then 5
  else if region = "Pre-Pirineo" then 5
  else 0

/-- The wind direction update: add the step, then the two `if` wraps, each
applied once. The sums are exact here; the code rounds each sum to `float`, so
there a sum just below 0 can wrap to exactly 360. -/
def wrap_direccion (direccion_viento dir_delta : ℚ) : ℚ :=
  let d0 := direccion_viento + dir_delta
  let d1 := if d0 < 0 then d0 + 360 else d0
  if d1 > 360 then d1 - 360 else d1

/-- The local `rain_prob`. -/
def rain_prob (copia : EstadoGlobal) : ℚ :=
  (if copia.tormenta then 0.7 else 0.2) + copia.nubosidad / 200

/-- The value assigned to `precipitacion` for the uniform draw `u`. -/
def precipitacion (copia : EstadoGlobal) (u : ℚ) : ℚ :=
  if u < rain_prob copia then (if copia.tormenta then 5 else 1) else 0

/-- The local `sensacion_termica`: initialised to `temperatura`, overwritten in
the wind-chill branch or else in the heat-index branch. -/
def sensacion_termica (pow : ℚ → ℚ → ℚ) (temperatura humedad viento : ℚ) : ℚ :=
  if temperatura < 10 ∧ viento > 3 then
    13.12 + 0.6215 * temperatura - 11.37 * pow viento 0.16
      + 0.3965 * temperatura * pow viento 0.16
  else if temperatura > 26 ∧ humedad > 40 then
    -8.784695 + 1.61139411 * temperatura + 2.338549 * humedad
      - 0.14611605 * temperatura * humedad
      - 0.012308094 * pow temperatura 2
      - 0.016424828 * pow humedad 2
      + 0.002211732 * pow temperatura 2 * humedad
      + 0.00072546 * temperatura * pow humedad 2
      - 0.000003582 * pow temperatura 2 * pow humedad 2
  else temperatura

/-- The local `uv_index`. -/
def uv_index (radiacion : ℚ) : ℚ := clamp ((radiacion / 1200) * 11) 0 11

/-- What one iteration of `station_thread` computes: the persistent locals
and the two per-iteration locals that go into the message. -/
structure StationStep where
  vars : StationVars
  sensacion_termica : ℚ
  uv_index : ℚ
  deriving DecidableEq, Repr

/-- One iteration of the loop of `station_thread`, up to the formatting of the
message. -/
def station_step (pow : ℚ → ℚ → ℚ) (estacion : Estacion) (copia : EstadoGlobal)
    (s : StationVars) (g : StationDraws) : StationStep :=
  let tendencia_temp := s.tendencia_temp + g.temp_delta
  let temperatura :=
    clamp (tendencia_temp + ajuste_temp estacion.region
      + (if copia.ola_calor then 5 else 0)) 5 40
  let humedad := clamp (s.humedad + g.hum_delta + ajuste_hum estacion.region) 20 95
  let viento := clamp (s.viento + g.viento_delta) 0 20
  let direccion_viento := wrap_direccion s.direccion_viento g.dir_delta
  { vars :=
      { temperatura := temperatura
        humedad := humedad
        viento := viento
        direccion_viento := direccion_viento
        precipitacion := precipitacion copia g.lluvia
        tendencia_temp := tendencia_temp }
    sensacion_termica := sensacion_termica pow temperatura humedad viento
    uv_index := uv_index copia.radiacion }

/-- The state `main` gives the engine before the threads start; `main` leaves
`estacion_año` at the empty string. -/
def motor_inicial : MotorGlobal :=
  { presion := 1015, nubosidad := 30, radiacion := 500,
    ola_calor := false, tormenta := false, estacion_anio := "" }

/-- The engine states reached from `motor` by running the loop body once per
entry of `ticks` (local hour, month and draws of that iteration), in order. -/
def motor_run (motor : MotorGlobal) : List (Int × Int × MotorDraws) → MotorGlobal
  | [] => motor
  | (hora, mes, g) :: rest => motor_run (motor_global_step motor hora mes g) rest

/-- The station locals reached from `s` by running the loop body of
`station_thread` once per entry of `ticks` (the snapshot read and the draws of
that iteration), in order: each iteration starts from the locals the previous
one left. -/
def station_run (pow : ℚ → ℚ → ℚ) (estacion : Estacion) (s : StationVars) :
    List (EstadoGlobal × StationDraws) → StationVars
  | [] => s
  | (copia, g) :: rest =>
      station_run pow estacion (station_step pow estacion copia s g).vars rest

/-- A concrete `pow` for evaluation: exact for natural exponents, `1` otherwise. -/
def pow_nat (x y : ℚ) : ℚ := if y.den = 1 ∧ 0 ≤ y.num then x ^ y.num.toNat else 1

/-! ## Lemmas on `clamp` -/

theorem std_max_eq (a b : ℚ) : std_max a b = max a b := by
  unfold std_max
  split
  · rename_i h; exact (max_eq_right h.le).symm
  · rename_i h; exact (max_eq_left (not_lt.mp h)).symm

theorem std_min_eq (a b : ℚ) : std_min a b = min a b := by
  unfold std_min
  split
  · rename_i h; exact (min_eq_right h.le).symm
  · rename_i h; exact (min_eq_left (not_lt.mp h)).symm

theorem clamp_eq (v lo hi : ℚ) : clamp v lo hi = max lo (min v hi) := by
  unfold clamp
  rw [std_max_eq, std_min_eq]

theorem clamp_lower (v lo hi : ℚ) : lo ≤ clamp v lo hi := by
  rw [clamp_eq]; exact le_max_left _ _

theorem clamp_upper (v lo hi : ℚ) (h : lo ≤ hi) : clamp v lo hi ≤ hi := by
  rw [clamp_eq]; exact max_le h (min_le_right _ _)

theorem rad_dia_nonneg (hora : Int) : 0 ≤ rad_dia hora := by
  unfold rad_dia
  split
  · rw [std_max_eq]; exact le_max_left _ _
  · exact le_refl _

theorem station_step_humedad (pow : ℚ → ℚ → ℚ) (estacion : Estacion)
    (copia : EstadoGlobal) (s : StationVars) (g : StationDraws) :
    (station_step pow estacion copia s g).vars.humedad
      = max 20 (min (s.humedad + g.hum_delta + ajuste_hum estacion.region) 95) := by
  rw [← clamp_eq]
  rfl

theorem station_run_humedad_up (pow : ℚ → ℚ → ℚ) (estacion : Estacion) :
    ∀ (ticks : List (EstadoGlobal × StationDraws)) (s : StationVars),
      (∀ t ∈ ticks, 0 ≤ t.2.hum_delta + ajuste_hum estacion.region) →
      20 ≤ s.humedad → s.humedad ≤ 95 →
      s.humedad ≤ (station_run pow estacion s ticks).humedad
        ∧ (station_run pow estacion s ticks).humedad ≤ 95 := by
  intro ticks
  induction ticks with
  | nil =>
    intro s _ _ h95
    exact ⟨le_refl _, h95⟩
  | cons t rest ih =>
    intro s hall h20 h95
    obtain ⟨copia, g⟩ := t
    have hg : 0 ≤ g.hum_delta + ajuste_hum estacion.region :=
      hall (copia, g) (List.mem_cons_self _ _)
    have hrest : ∀ t ∈ rest, 0 ≤ t.2.hum_delta + ajuste_hum estacion.region :=
      fun t ht => hall t (List.mem_cons_of_mem _ ht)
    have hstep := station_step_humedad pow estacion copia s g
    have hup : s.humedad ≤ (station_step pow estacion copia s g).vars.humedad := by
      rw [hstep]
      exact le_max_of_le_right (le_min (by linarith) h95)
    have hlo : 20 ≤ (station_step pow estacion copia s g).vars.humedad := by
      rw [hstep]; exact le_max_left _ _
    have hhi : (station_step pow estacion copia s g).vars.humedad ≤ 95 := by
      rw [hstep]; exact max_le (by norm_num) (min_le_right _ _)
    have h := ih (station_step pow estacion copia s g).vars hrest hlo hhi
    exact ⟨le_trans hup h.1, h.2⟩

theorem station_run_humedad_down (pow : ℚ → ℚ → ℚ) (estacion : Estacion) :
    ∀ (ticks : List (EstadoGlobal × StationDraws)) (s : StationVars),
      (∀ t ∈ ticks, t.2.hum_delta + ajuste_hum estacion.region ≤ 0) →
      20 ≤ s.humedad → s.humedad ≤ 95 →
      (station_run pow estacion s ticks).humedad ≤ s.humedad
        ∧ 20 ≤ (station_run pow estacion s ticks).humedad := by
  intro ticks
  induction ticks with
  | nil =>
    intro s _ h20 _
    exact ⟨le_refl _, h20⟩
  | cons t rest ih =>
    intro s hall h20 h95
    obtain ⟨copia, g⟩ := t
    have hg : g.hum_delta + ajuste_hum estacion.region ≤ 0 :=
      hall (copia, g) (List.mem_cons_self _ _)
    have hrest : ∀ t ∈ rest, t.2.hum_delta + ajuste_hum estacion.region ≤ 0 :=
      fun t ht => hall t (List.mem_cons_of_mem _ ht)
    have hstep := station_step_humedad pow estacion copia s g
    have hdown : (station_step pow estacion copia s g).vars.humedad ≤ s.humedad := by
      rw [hstep]
      exact max_le h20 (le_trans (min_le_left _ _) (by linarith))
    have hlo : 20 ≤ (station_step pow estacion copia s g).vars.humedad := by
      rw [hstep]; exact le_max_left _ _
    have hhi : (station_step pow estacion copia s g).vars.humedad ≤ 95 := by
      rw [hstep]; exact max_le (by norm_num) (min_le_right _ _)
    have h := ih (station_step pow estacion copia s g).vars hrest hlo hhi
    exact ⟨le_trans h.1 hdown, h.2⟩

/-! ## Claims -/

/-- C1: after one iteration of the engine loop, for every prior state, every
hour and every value of the Gaussian draws, the pressure is in [950, 1050],
the cloud cover in [0, 100] and the radiation in [0, 1200 * rad_dia hora]. -/
theorem C1_motor_step_in_range (motor : MotorGlobal) (hora mes : Int) (g : MotorDraws) :
    (950 ≤ (motor_global_step motor hora mes g).presion
      ∧ (motor_global_step motor hora mes g).presion ≤ 1050)
    ∧ (0 ≤ (motor_global_step motor hora mes g).nubosidad
      ∧ (motor_global_step motor hora mes g).nubosidad ≤ 100)
    ∧ (0 ≤ (motor_global_step motor hora mes g).radiacion
      ∧ (motor_global_step motor hora mes g).radiacion ≤ 1200 * rad_dia hora) := by
  have hr : (0 : ℚ) ≤ 1200 * rad_dia hora :=
    mul_nonneg (by norm_num) (rad_dia_nonneg hora)
  refine ⟨⟨clamp_lower _ _ _, clamp_upper _ _ _ (by norm_num)⟩,
    ⟨clamp_lower _ _ _, clamp_upper _ _ _ (by norm_num)⟩,
    ⟨clamp_lower _ _ _, clamp_upper _ _ _ hr⟩⟩

/-- C2: after one iteration of the station loop, for every prior station
state, region, snapshot and draws, the temperature is in [5, 40], the humidity
in [20, 95], the wind speed in [0, 20] and the UV index in [0, 11]. -/
theorem C2_station_step_in_range (pow : ℚ → ℚ → ℚ) (estacion : Estacion)
    (copia : EstadoGlobal) (s : StationVars) (g : StationDraws) :
    (5 ≤ (station_step pow estacion copia s g).vars.temperatura
      ∧ (station_step pow estacion copia s g).vars.temperatura ≤ 40)
    ∧ (20 ≤ (station_step pow estacion copia s g).vars.humedad
      ∧ (station_step pow estacion copia s g).vars.humedad ≤ 95)
    ∧ (0 ≤ (station_step pow estacion copia s g).vars.viento
      ∧ (station_step pow estacion copia s g).vars.viento ≤ 20)
    ∧ (0 ≤ (station_step pow estacion copia s g).uv_index
      ∧ (station_step pow estacion copia s g).uv_index ≤ 11) := by
  refine ⟨⟨clamp_lower _ _ _, clamp_upper _ _ _ (by norm_num)⟩,
    ⟨clamp_lower _ _ _, clamp_upper _ _ _ (by norm_num)⟩,
    ⟨clamp_lower _ _ _, clamp_upper _ _ _ (by norm_num)⟩,
    ⟨clamp_lower _ _ _, clamp_upper _ _ _ (by norm_num)⟩⟩

/-- C3, as stated, fails: from direction 359 a step of 1 leaves the direction
at exactly 360 (the second wrap tests `> 360`), and from direction 0 a step of
800 gives 440 and a step of -400 gives -40 (each wrap is applied once); so the
direction after the update is not always in [0, 360). -/
theorem C3_wrap_leaves_half_open_range :
    wrap_direccion 359 1 = 360
    ∧ wrap_direccion 0 800 = 440
    ∧ wrap_direccion 0 (-400) = -40
    ∧ ¬ (∀ d delta : ℚ, 0 ≤ d → d < 360 →
          0 ≤ (station_step pow_nat ⟨1, "Barcelona", "Litoral Urbano"⟩
                (MotorGlobal.snapshot motor_inicial)
                ⟨20, 50, 5, d, 0, 20⟩ ⟨0, 0, 0, delta, 0⟩).vars.direccion_viento
          ∧ (station_step pow_nat ⟨1, "Barcelona", "Litoral Urbano"⟩
                (MotorGlobal.snapshot motor_inicial)
                ⟨20, 50, 5, d, 0, 20⟩ ⟨0, 0, 0, delta, 0⟩).vars.direccion_viento
              < 360) := by
  refine ⟨by norm_num [wrap_direccion], by norm_num [wrap_direccion],
    by norm_num [wrap_direccion], ?_⟩
  intro h
  have h1 := (h 359 1 (by norm_num) (by norm_num)).2
  norm_num [station_step, wrap_direccion] at h1

/-- C3, amended: for every current direction d (so for every d in [0, 360))
and every step delta with -360 ≤ d + delta ≤ 720, the direction after the
update of the station iteration is in the closed interval [0, 360]; the end
360 is reached, direction 359 with step 1 gives 360; direction 359 with step
5 gives 4 and direction 2 with step -5 gives 357. -/
theorem C3_wrap_direccion_closed_range (pow : ℚ → ℚ → ℚ) (estacion : Estacion)
    (copia : EstadoGlobal) (s : StationVars) (g : StationDraws)
    (hlo : -360 ≤ s.direccion_viento + g.dir_delta)
    (hhi : s.direccion_viento + g.dir_delta ≤ 720) :
    (0 ≤ (station_step pow estacion copia s g).vars.direccion_viento
      ∧ (station_step pow estacion copia s g).vars.direccion_viento ≤ 360)
    ∧ (station_step pow estacion copia ⟨20, 50, 5, 359, 0, 20⟩
          ⟨0, 0, 0, 1, 0⟩).vars.direccion_viento = 360
    ∧ (station_step pow estacion copia ⟨20, 50, 5, 359, 0, 20⟩
          ⟨0, 0, 0, 5, 0⟩).vars.direccion_viento = 4
    ∧ (station_step pow estacion copia ⟨20, 50, 5, 2, 0, 20⟩
          ⟨0, 0, 0, -5, 0⟩).vars.direccion_viento = 357 := by
  have key : ∀ (x : StationVars) (y : StationDraws),
      (station_step pow estacion copia x y).vars.direccion_viento
        = wrap_direccion x.direccion_viento y.dir_delta := fun _ _ => rfl
  rw [key, key, key, key]
  refine ⟨?_, by norm_num [wrap_direccion], by norm_num [wrap_direccion],
    by norm_num [wrap_direccion]⟩
  unfold wrap_direccion
  dsimp only
  split_ifs with ha hb hb
  · constructor <;> linarith
  · constructor <;> linarith
  · constructor <;> linarith
  · push_neg at ha hb
    exact ⟨ha, hb⟩

/-- Witness for C3 (amended): direction 300 with step 400, a step above 360
whose sum 700 is within the bound; the result 340 is in [0, 360]. -/
theorem C3_wrap_direccion_closed_range_witness :
    0 ≤ (station_step pow_nat ⟨1, "Barcelona", "Litoral Urbano"⟩
          (MotorGlobal.snapshot motor_inicial)
          ⟨20, 50, 5, 300, 0, 20⟩ ⟨0, 0, 0, 400, 0⟩).vars.direccion_viento
    ∧ (station_step pow_nat ⟨1, "Barcelona", "Litoral Urbano"⟩
          (MotorGlobal.snapshot motor_inicial)
          ⟨20, 50, 5, 300, 0, 20⟩ ⟨0, 0, 0, 400, 0⟩).vars.direccion_viento ≤ 360 :=
  (C3_wrap_direccion_closed_range pow_nat ⟨1, "Barcelona", "Litoral Urbano"⟩
    (MotorGlobal.snapshot motor_inicial) ⟨20, 50, 5, 300, 0, 20⟩ ⟨0, 0, 0, 400, 0⟩
    (by norm_num) (by norm_num)).1

/-- C4: the regime selection of the apparent temperature is exclusive and
exhaustive. For every temperature, humidity and wind exactly one of three cases
holds: wind-chill (temperature < 10 and wind > 3), heat-index (temperature > 26
and humidity > 40), or neither; the two regimes never hold together; in the
first the result is the wind-chill expression, in the second the nine-term
heat-index polynomial, in the third the raw temperature. Temperature 5 with
wind 10 selects wind-chill, temperature 30 with humidity 60 selects heat-index,
and temperature 20, humidity 50, wind 1 returns 20. -/
theorem C4_sensacion_termica_regimes (pow : ℚ → ℚ → ℚ) (t h v : ℚ) :
    ¬ ((t < 10 ∧ v > 3) ∧ (t > 26 ∧ h > 40))
    ∧ (((t < 10 ∧ v > 3) ∧ ¬ (t > 26 ∧ h > 40)
          ∧ sensacion_termica pow t h v
              = 13.12 + 0.6215 * t - 11.37 * pow v 0.16 + 0.3965 * t * pow v 0.16)
        ∨ (¬ (t < 10 ∧ v > 3) ∧ (t > 26 ∧ h > 40)
          ∧ sensacion_termica pow t h v
              = -8.784695 + 1.61139411 * t + 2.338549 * h - 0.14611605 * t * h
                - 0.012308094 * pow t 2 - 0.016424828 * pow h 2
                + 0.002211732 * pow t 2 * h + 0.00072546 * t * pow h 2
                - 0.000003582 * pow t 2 * pow h 2)
        ∨ (¬ (t < 10 ∧ v > 3) ∧ ¬ (t > 26 ∧ h > 40)
          ∧ sensacion_termica pow t h v = t))
    ∧ sensacion_termica pow 5 h 10
        = 13.12 + 0.6215 * 5 - 11.37 * pow 10 0.16 + 0.3965 * 5 * pow 10 0.16
    ∧ sensacion_termica pow 30 60 v
        = -8.784695 + 1.61139411 * 30 + 2.338549 * 60 - 0.14611605 * 30 * 60
          - 0.012308094 * pow 30 2 - 0.016424828 * pow 60 2
          + 0.002211732 * pow 30 2 * 60 + 0.00072546 * 30 * pow 60 2
          - 0.000003582 * pow 30 2 * pow 60 2
    ∧ sensacion_termica pow 20 50 1 = 20 := by
  refine ⟨?_, ?_, ?_, ?_, ?_⟩
  · rintro ⟨⟨h1, _⟩, ⟨h2, _⟩⟩
    linarith
  · by_cases hA : t < 10 ∧ v > 3
    · left
      refine ⟨hA, ?_, ?_⟩
      · rintro ⟨h2, _⟩
        linarith [hA.1]
      · unfold sensacion_termica
        rw [if_pos hA]
    · by_cases hB : t > 26 ∧ h > 40
      · right; left
        refine ⟨hA, hB, ?_⟩
        unfold sensacion_termica
        rw [if_neg hA, if_pos hB]
      · right; right
        refine ⟨hA, hB, ?_⟩
        unfold sensacion_termica
        rw [if_neg hA, if_neg hB]
  · have hA : (5 : ℚ) < 10 ∧ (10 : ℚ) > 3 := by norm_num
    unfold sensacion_termica
    rw [if_pos hA]
  · have hA : ¬ ((30 : ℚ) < 10 ∧ v > 3) := by
      rintro ⟨h1, _⟩
      norm_num at h1
    have hB : (30 : ℚ) > 26 ∧ (60 : ℚ) > 40 := by norm_num
    unfold sensacion_termica
    rw [if_neg hA, if_pos hB]
  · have hA : ¬ ((20 : ℚ) < 10 ∧ (1 : ℚ) > 3) := by norm_num
    have hB : ¬ ((20 : ℚ) > 26 ∧ (50 : ℚ) > 40) := by norm_num
    unfold sensacion_termica
    rw [if_neg hA, if_neg hB]

/-- C5: the UV index of the station iteration is monotone non-decreasing in
the radiation, and it is exactly 11 for every radiation of at least 1200. -/
theorem C5_uv_index_monotone_saturates :
    (∀ r1 r2 : ℚ, r1 ≤ r2 → uv_index r1 ≤ uv_index r2)
    ∧ (∀ r : ℚ, 1200 ≤ r → uv_index r = 11) := by
  constructor
  · intro r1 r2 h
    unfold uv_index
    rw [clamp_eq, clamp_eq]
    have hs : r1 / 1200 * 11 ≤ r2 / 1200 * 11 := by linarith
    exact max_le_max (le_refl _) (min_le_min hs (le_refl _))
  · intro r h
    unfold uv_index
    rw [clamp_eq]
    have hs : (11 : ℚ) ≤ r / 1200 * 11 := by linarith
    rw [min_eq_right hs]
    norm_num

/-- Witness for C5: radiation 600 against 1300, and saturation at 1300. -/
theorem C5_uv_index_monotone_saturates_witness :
    uv_index 600 ≤ uv_index 1300 ∧ uv_index 1300 = 11 :=
  ⟨C5_uv_index_monotone_saturates.1 600 1300 (by norm_num),
    C5_uv_index_monotone_saturates.2 1300 (by norm_num)⟩

/-- C6: a rain probability above 1 means it always rains. With the storm flag
set and cloud cover 100 the rain probability is 1.2 and, for every uniform draw
of at most 1 (so for every draw in [0, 1]), the station iteration sets the
precipitation to 5; whenever the rain probability exceeds 1 the precipitation
is non-zero for every such draw. -/
theorem C6_rain_prob_above_one_always_rains (pow : ℚ → ℚ → ℚ) (estacion : Estacion)
    (copia : EstadoGlobal) (s : StationVars) (g : StationDraws)
    (hu1 : g.lluvia ≤ 1) :
    (copia.tormenta = true → copia.nubosidad = 100 →
        rain_prob copia = 1.2
        ∧ (station_step pow estacion copia s g).vars.precipitacion = 5)
    ∧ (1 < rain_prob copia →
        (station_step pow estacion copia s g).vars.precipitacion ≠ 0) := by
  have key : (station_step pow estacion copia s g).vars.precipitacion
      = precipitacion copia g.lluvia := rfl
  rw [key]
  constructor
  · intro ht hn
    have hp : rain_prob copia = 1.2 := by
      unfold rain_prob
      rw [ht, hn]
      norm_num
    refine ⟨hp, ?_⟩
    have hlt : g.lluvia < rain_prob copia := by
      rw [hp]
      have : (1 : ℚ) < 1.2 := by norm_num
      linarith
    unfold precipitacion
    rw [if_pos hlt, ht]
    rfl
  · intro hp
    have hlt : g.lluvia < rain_prob copia := by linarith
    unfold precipitacion
    rw [if_pos hlt]
    split <;> norm_num

/-- Witness for C6: storm, cloud cover 100, draw 1. -/
theorem C6_rain_prob_above_one_always_rains_witness :
    rain_prob ⟨1015, 100, 500, true, false, "verano"⟩ = 1.2
    ∧ (station_step pow_nat ⟨4, "Lleida", "Interior Seco"⟩
          ⟨1015, 100, 500, true, false, "verano"⟩
          ⟨20, 50, 5, 180, 0, 20⟩ ⟨0, 0, 0, 0, 1⟩).vars.precipitacion = 5 :=
  (C6_rain_prob_above_one_always_rains pow_nat ⟨4, "Lleida", "Interior Seco"⟩
    ⟨1015, 100, 500, true, false, "verano"⟩ ⟨20, 50, 5, 180, 0, 20⟩ ⟨0, 0, 0, 0, 1⟩
    (by norm_num)).1 rfl rfl

/-- C7: the precipitation is a Bernoulli gate with three values. With
p = (0.7 if storm else 0.2) + cloud cover / 200 and draw u, the precipitation
set by the station iteration is 5 iff u < p and storm, 1 iff u < p and no
storm, 0 iff u ≥ p; it takes no other value, and it is the same whatever the
previous station state (so whatever the previous precipitation). -/
theorem C7_precipitacion_bernoulli_gate (pow : ℚ → ℚ → ℚ) (estacion : Estacion)
    (copia : EstadoGlobal) (s s' : StationVars) (g : StationDraws) :
    ((station_step pow estacion copia s g).vars.precipitacion = 5
        ↔ (g.lluvia < (if copia.tormenta then 0.7 else 0.2) + copia.nubosidad / 200
            ∧ copia.tormenta = true))
    ∧ ((station_step pow estacion copia s g).vars.precipitacion = 1
        ↔ (g.lluvia < (if copia.tormenta then 0.7 else 0.2) + copia.nubosidad / 200
            ∧ copia.tormenta = false))
    ∧ ((station_step pow estacion copia s g).vars.precipitacion = 0
        ↔ (if copia.tormenta then 0.7 else 0.2) + copia.nubosidad / 200 ≤ g.lluvia)
    ∧ ((station_step pow estacion copia s g).vars.precipitacion = 5
        ∨ (station_step pow estacion copia s g).vars.precipitacion = 1
        ∨ (station_step pow estacion copia s g).vars.precipitacion = 0)
    ∧ (station_step pow estacion copia s g).vars.precipitacion
        = (station_step pow estacion copia s' g).vars.precipitacion := by
  have key : ∀ x : StationVars, (station_step pow estacion copia x g).vars.precipitacion
      = precipitacion copia g.lluvia := fun _ => rfl
  rw [key s, key s']
  unfold precipitacion rain_prob
  generalize (if copia.tormenta then (0.7 : ℚ) else 0.2) + copia.nubosidad / 200 = p
  by_cases hlt : g.lluvia < p
  · have hnle : ¬ (p ≤ g.lluvia) := not_le.mpr hlt
    rw [if_pos hlt]
    cases copia.tormenta <;> norm_num [hlt, hnle]
  · have hle : p ≤ g.lluvia := not_lt.mp hlt
    rw [if_neg hlt]
    norm_num [hlt, hle]

/-- C8: the temperature trend moves by the random walk only. After a station
iteration the trend is the old trend plus the Gaussian step (no clamp, no
regional bias, no heat-wave offset), and the reported temperature is the new
trend plus the regional bias plus 5 under a heat wave, clamped to [5, 40]. -/
theorem C8_tendencia_temp_random_walk (pow : ℚ → ℚ → ℚ) (estacion : Estacion)
    (copia : EstadoGlobal) (s : StationVars) (g : StationDraws) :
    (station_step pow estacion copia s g).vars.tendencia_temp
        = s.tendencia_temp + g.temp_delta
    ∧ (station_step pow estacion copia s g).vars.temperatura
        = max 5 (min ((station_step pow estacion copia s g).vars.tendencia_temp
            + ajuste_temp estacion.region + (if copia.ola_calor = true then 5 else 0)) 40) := by
  refine ⟨rfl, ?_⟩
  rw [← clamp_eq]
  rfl

/-- C9: the daylight factor of the engine iteration is 0 for every integer hour
outside [6, 18] and max(0, 1 - |12 - hour| / 6) for every hour in [6, 18]; it
lies in [0, 1], it is 1 only at hour 12, and it is symmetric about noon. -/
theorem C9_rad_dia_triangular (hora k : Int) :
    ((hora < 6 ∨ 18 < hora) → rad_dia hora = 0)
    ∧ ((6 ≤ hora ∧ hora ≤ 18) → rad_dia hora = max 0 (1 - |(12 - hora : ℚ)| / 6))
    ∧ (0 ≤ rad_dia hora ∧ rad_dia hora ≤ 1)
    ∧ (rad_dia hora = 1 ↔ hora = 12)
    ∧ rad_dia (12 - k) = rad_dia (12 + k) := by
  have hin : ∀ x : Int, 6 ≤ x ∧ x ≤ 18 →
      rad_dia x = max 0 (1 - |(12 - x : ℚ)| / 6) := by
    intro x hx
    have hx' : x ≥ 6 ∧ x ≤ 18 := hx
    unfold rad_dia
    rw [if_pos hx', std_max_eq]
    push_cast
    rfl
  have hout : ∀ x : Int, (x < 6 ∨ 18 < x) → rad_dia x = 0 := by
    intro x hx
    have hx' : ¬ (x ≥ 6 ∧ x ≤ 18) := by omega
    unfold rad_dia
    rw [if_neg hx']
  have habs : (0 : ℚ) ≤ |(12 - hora : ℚ)| := abs_nonneg _
  refine ⟨hout hora, hin hora, ⟨rad_dia_nonneg hora, ?_⟩, ?_, ?_⟩
  · by_cases hx : 6 ≤ hora ∧ hora ≤ 18
    · rw [hin hora hx]
      apply max_le (by norm_num)
      linarith
    · rw [hout hora (by omega)]
      norm_num
  · by_cases hx : 6 ≤ hora ∧ hora ≤ 18
    · rw [hin hora hx]
      constructor
      · intro h1
        have h2 : (1 : ℚ) - |(12 - hora : ℚ)| / 6 = 1 := by
          rcases max_choice (0 : ℚ) (1 - |(12 - hora : ℚ)| / 6) with hm | hm
          · rw [hm] at h1; norm_num at h1
          · rw [hm] at h1; exact h1
        have h3 : |(12 - hora : ℚ)| = 0 := by linarith
        have h4 : (12 - hora : ℚ) = 0 := abs_eq_zero.mp h3
        have h5 : (hora : ℚ) = 12 := by linarith
        exact_mod_cast h5
      · intro h1
        rw [h1]
        norm_num
    · rw [hout hora (by omega)]
      constructor
      · intro h1; norm_num at h1
      · intro h1; omega
  · by_cases hk : -6 ≤ k ∧ k ≤ 6
    · rw [hin (12 - k) (by omega), hin (12 + k) (by omega)]
      push_cast
      have e1 : (12 : ℚ) - (12 - k) = k := by ring
      have e2 : (12 : ℚ) - (12 + k) = -k := by ring
      rw [e1, e2, abs_neg]
    · rw [hout (12 - k) (by omega), hout (12 + k) (by omega)]

/-- C10: the season is a total function of the calendar month. For every prior
state the engine iteration sets the season to "invierno" for months 12, 1, 2,
to "primavera" for 3, 4, 5, to "verano" for 6, 7, 8 and to "otoño" for 9, 10,
11, so for every month 1..12 it is one of the four and does not depend on the
previous state. -/
theorem C10_estacion_anio_by_month (motor motor' : MotorGlobal) (hora mes : Int)
    (g : MotorDraws) :
    ((mes = 12 ∨ mes = 1 ∨ mes = 2) →
        (motor_global_step motor hora mes g).estacion_anio = "invierno")
    ∧ ((mes = 3 ∨ mes = 4 ∨ mes = 5) →
        (motor_global_step motor hora mes g).estacion_anio = "primavera")
    ∧ ((mes = 6 ∨ mes = 7 ∨ mes = 8) →
        (motor_global_step motor hora mes g).estacion_anio = "verano")
    ∧ ((mes = 9 ∨ mes = 10 ∨ mes = 11) →
        (motor_global_step motor hora mes g).estacion_anio = "otoño")
    ∧ ((1 ≤ mes ∧ mes ≤ 12) →
        ((mes = 12 ∨ mes = 1 ∨ mes = 2) ∨ (mes = 3 ∨ mes = 4 ∨ mes = 5)
          ∨ (mes = 6 ∨ mes = 7 ∨ mes = 8) ∨ (mes = 9 ∨ mes = 10 ∨ mes = 11)))
    ∧ (motor_global_step motor hora mes g).estacion_anio
        = (motor_global_step motor' hora mes g).estacion_anio := by
  have key : ∀ m : MotorGlobal, (motor_global_step m hora mes g).estacion_anio
      = estacion_anio mes := fun _ => rfl
  rw [key motor, key motor']
  refine ⟨?_, ?_, ?_, ?_, ?_, rfl⟩
  · intro h
    have h1 : mes = 12 ∨ mes ≤ 2 := by omega
    unfold estacion_anio
    rw [if_pos h1]
  · intro h
    have h1 : ¬ (mes = 12 ∨ mes ≤ 2) := by omega
    have h2 : mes ≥ 3 ∧ mes ≤ 5 := by omega
    unfold estacion_anio
    rw [if_neg h1, if_pos h2]
  · intro h
    have h1 : ¬ (mes = 12 ∨ mes ≤ 2) := by omega
    have h2 : ¬ (mes ≥ 3 ∧ mes ≤ 5) := by omega
    have h3 : mes ≥ 6 ∧ mes ≤ 8 := by omega
    unfold estacion_anio
    rw [if_neg h1, if_neg h2, if_pos h3]
  · intro h
    have h1 : ¬ (mes = 12 ∨ mes ≤ 2) := by omega
    have h2 : ¬ (mes ≥ 3 ∧ mes ≤ 5) := by omega
    have h3 : ¬ (mes ≥ 6 ∧ mes ≤ 8) := by omega
    unfold estacion_anio
    rw [if_neg h1, if_neg h2, if_neg h3]
  · intro h
    omega

/-- C11: the regional bias lookup follows the fixed table and is total.
"Litoral Urbano" gives (0, 10), "Interior Seco" (3, -10), "Alta Montaña"
(-7, 5), "Pre-Pirineo" (-2, 5), and every other region string, such as the
configured "Litoral Sur" or the empty string, gives (0, 0). -/
theorem C11_ajuste_region_table (region : String) :
    (ajuste_temp "Litoral Urbano" = 0 ∧ ajuste_hum "Litoral Urbano" = 10)
    ∧ (ajuste_temp "Interior Seco" = 3 ∧ ajuste_hum "Interior Seco" = -10)
    ∧ (ajuste_temp "Alta Montaña" = -7 ∧ ajuste_hum "Alta Montaña" = 5)
    ∧ (ajuste_temp "Pre-Pirineo" = -2 ∧ ajuste_hum "Pre-Pirineo" = 5)
    ∧ (ajuste_temp "Litoral Sur" = 0 ∧ ajuste_hum "Litoral Sur" = 0)
    ∧ (ajuste_temp "" = 0 ∧ ajuste_hum "" = 0)
    ∧ ((region ≠ "Litoral Urbano" ∧ region ≠ "Interior Seco"
          ∧ region ≠ "Alta Montaña" ∧ region ≠ "Pre-Pirineo") →
        ajuste_temp region = 0 ∧ ajuste_hum region = 0) := by
  refine ⟨?_, ?_, ?_, ?_, ?_, ?_, ?_⟩
  · constructor <;> simp [ajuste_temp, ajuste_hum]
  · constructor <;> simp [ajuste_temp, ajuste_hum]
  · constructor <;> simp [ajuste_temp, ajuste_hum]
  · constructor <;> simp [ajuste_temp, ajuste_hum]
  · constructor <;> simp [ajuste_temp, ajuste_hum]
  · constructor <;> simp [ajuste_temp, ajuste_hum]
  · rintro ⟨h1, h2, h3, h4⟩
    unfold ajuste_temp ajuste_hum
    rw [if_neg h1, if_neg h2, if_neg h3, if_neg h4, if_neg h1, if_neg h2, if_neg h3,
      if_neg h4]
    exact ⟨rfl, rfl⟩

/-- C12: the extreme-event flags are re-rolled and not latched. After an engine
iteration the storm flag is set iff its draw is below 0.02 and the heat-wave
flag iff its draw is below 0.01; two iterations from any two prior states, at
any hours, months and other draws, give the same storm flag when the storm
draws agree and the same heat-wave flag when the heat-wave draws agree. -/
theorem C12_event_flags_rerolled (motor motor' : MotorGlobal) (hora hora' mes mes' : Int)
    (g g' : MotorDraws) :
    ((motor_global_step motor hora mes g).tormenta = true ↔ g.evento_tormenta < 0.02)
    ∧ ((motor_global_step motor hora mes g).ola_calor = true ↔ g.evento_ola < 0.01)
    ∧ (g.evento_tormenta = g'.evento_tormenta →
        (motor_global_step motor hora mes g).tormenta
          = (motor_global_step motor' hora' mes' g').tormenta)
    ∧ (g.evento_ola = g'.evento_ola →
        (motor_global_step motor hora mes g).ola_calor
          = (motor_global_step motor' hora' mes' g').ola_calor) := by
  have kt : ∀ (m : MotorGlobal) (h k : Int) (d : MotorDraws),
      (motor_global_step m h k d).tormenta = decide (d.evento_tormenta < 0.02) :=
    fun _ _ _ _ => rfl
  have ko : ∀ (m : MotorGlobal) (h k : Int) (d : MotorDraws),
      (motor_global_step m h k d).ola_calor = decide (d.evento_ola < 0.01) :=
    fun _ _ _ _ => rfl
  refine ⟨?_, ?_, ?_, ?_⟩
  · rw [kt]; exact decide_eq_true_iff
  · rw [ko]; exact decide_eq_true_iff
  · intro h; rw [kt, kt, h]
  · intro h; rw [ko, ko, h]

/-- Witness for C12: a storm draw of 0.5 against a storm draw of 0.5 from a
different prior state and with a different heat-wave draw. -/
theorem C12_event_flags_rerolled_witness :
    (motor_global_step motor_inicial 12 7 ⟨0, 0, 0, 0, 0.5⟩).tormenta
      = (motor_global_step ⟨1000, 80, 0, true, true, "invierno"⟩ 3 1
          ⟨1, 1, 1, 1, 0.5⟩).tormenta :=
  (C12_event_flags_rerolled motor_inicial ⟨1000, 80, 0, true, true, "invierno"⟩ 12 3 7 1
    ⟨0, 0, 0, 0, 0.5⟩ ⟨1, 1, 1, 1, 0.5⟩).2.2.1 rfl

/-- C14, as stated, fails: at startup hour 0 the daylight factor is 0, so the
bound on the radiation is 0 while `main` sets the radiation to 500; the initial
state does not satisfy the hour-scaled radiation bound at every hour 0..23. -/
theorem C14_initial_radiation_above_night_bound :
    rad_dia 0 = 0
    ∧ (motor_run motor_inicial []).radiacion = 500
    ∧ ¬ ((motor_run motor_inicial []).radiacion ≤ 1200 * rad_dia 0)
    ∧ ¬ (∀ hora : Int, 0 ≤ hora → hora ≤ 23 →
          (950 ≤ motor_inicial.presion ∧ motor_inicial.presion ≤ 1050)
          ∧ (0 ≤ motor_inicial.nubosidad ∧ motor_inicial.nubosidad ≤ 100)
          ∧ (0 ≤ motor_inicial.radiacion
              ∧ motor_inicial.radiacion ≤ 1200 * rad_dia hora)) := by
  have h0 : rad_dia 0 = 0 := by
    unfold rad_dia
    rw [if_neg (by omega)]
  have hr : (motor_run motor_inicial []).radiacion = 500 := rfl
  refine ⟨h0, hr, ?_, ?_⟩
  · rw [hr, h0]; norm_num
  · intro h
    have h1 := (h 0 (by norm_num) (by norm_num)).2.2.2
    have hr' : motor_inicial.radiacion = 500 := rfl
    rw [hr', h0] at h1
    norm_num at h1

/-- C14, amended: the initial state set by `main` has pressure 1015 in
[950, 1050], cloud cover 30 in [0, 100] and radiation 500 in [0, 1200]; the
radiation is within [0, 1200 * rad_dia hora] exactly for the startup hours
9..15; and every state reached from it by one or more engine iterations has
pressure in [950, 1050], cloud cover in [0, 100] and radiation in
[0, 1200 * rad_dia] of the hour of its latest iteration. -/
theorem C14_initial_state_and_reachable_bounds (hora : Int)
    (ticks : List (Int × Int × MotorDraws)) (hora' mes : Int) (g : MotorDraws) :
    (950 ≤ motor_inicial.presion ∧ motor_inicial.presion ≤ 1050)
    ∧ (0 ≤ motor_inicial.nubosidad ∧ motor_inicial.nubosidad ≤ 100)
    ∧ (0 ≤ motor_inicial.radiacion ∧ motor_inicial.radiacion ≤ 1200)
    ∧ (motor_inicial.radiacion ≤ 1200 * rad_dia hora ↔ (9 ≤ hora ∧ hora ≤ 15))
    ∧ ((950 ≤ (motor_global_step (motor_run motor_inicial ticks) hora' mes g).presion
        ∧ (motor_global_step (motor_run motor_inicial ticks) hora' mes g).presion ≤ 1050)
      ∧ (0 ≤ (motor_global_step (motor_run motor_inicial ticks) hora' mes g).nubosidad
        ∧ (motor_global_step (motor_run motor_inicial ticks) hora' mes g).nubosidad ≤ 100)
      ∧ (0 ≤ (motor_global_step (motor_run motor_inicial ticks) hora' mes g).radiacion
        ∧ (motor_global_step (motor_run motor_inicial ticks) hora' mes g).radiacion
            ≤ 1200 * rad_dia hora')) := by
  have hp : motor_inicial.presion = 1015 := rfl
  have hn : motor_inicial.nubosidad = 30 := rfl
  have hr : motor_inicial.radiacion = 500 := rfl
  have hb : (0 : ℚ) ≤ 1200 * rad_dia hora' :=
    mul_nonneg (by norm_num) (rad_dia_nonneg hora')
  refine ⟨by rw [hp]; norm_num, by rw [hn]; norm_num, by rw [hr]; norm_num, ?_,
    ⟨clamp_lower _ _ _, clamp_upper _ _ _ (by norm_num)⟩,
    ⟨clamp_lower _ _ _, clamp_upper _ _ _ (by norm_num)⟩,
    ⟨clamp_lower _ _ _, clamp_upper _ _ _ hb⟩⟩
  rw [hr]
  by_cases hx : 6 ≤ hora ∧ hora ≤ 18
  · obtain ⟨hlo, hhi⟩ := hx
    interval_cases hora <;> norm_num [rad_dia, std_max]
  · have hx' : ¬ (hora ≥ 6 ∧ hora ≤ 18) := hx
    unfold rad_dia
    rw [if_neg hx']
    constructor
    · intro h; norm_num at h
    · intro h; omega

/-- C15 at the failing input: `main` sets every field of the engine but the
season, so the snapshot taken before the first engine iteration carries the
empty string, which is none of the four season values; after one or more
iterations the season is one of the four. -/
theorem C15_season_before_first_tick (ticks : List (Int × Int × MotorDraws))
    (hora mes : Int) (g : MotorDraws) :
    (MotorGlobal.snapshot (motor_run motor_inicial [])).estacion_anio = ""
    ∧ ¬ ((MotorGlobal.snapshot (motor_run motor_inicial [])).estacion_anio = "invierno"
        ∨ (MotorGlobal.snapshot (motor_run motor_inicial [])).estacion_anio = "primavera"
        ∨ (MotorGlobal.snapshot (motor_run motor_inicial [])).estacion_anio = "verano"
        ∨ (MotorGlobal.snapshot (motor_run motor_inicial [])).estacion_anio = "otoño")
    ∧ ((MotorGlobal.snapshot
          (motor_global_step (motor_run motor_inicial ticks) hora mes g)).estacion_anio
          = "invierno"
        ∨ (MotorGlobal.snapshot
          (motor_global_step (motor_run motor_inicial ticks) hora mes g)).estacion_anio
          = "primavera"
        ∨ (MotorGlobal.snapshot
          (motor_global_step (motor_run motor_inicial ticks) hora mes g)).estacion_anio
          = "verano"
        ∨ (MotorGlobal.snapshot
          (motor_global_step (motor_run motor_inicial ticks) hora mes g)).estacion_anio
          = "otoño") := by
  have h0 : (MotorGlobal.snapshot (motor_run motor_inicial [])).estacion_anio = "" := rfl
  have hs : (MotorGlobal.snapshot
      (motor_global_step (motor_run motor_inicial ticks) hora mes g)).estacion_anio
      = estacion_anio mes := rfl
  refine ⟨h0, ?_, ?_⟩
  · rw [h0]
    decide
  · rw [hs]
    unfold estacion_anio
    split_ifs
    · exact Or.inl rfl
    · exact Or.inr (Or.inl rfl)
    · exact Or.inr (Or.inr (Or.inl rfl))
    · exact Or.inr (Or.inr (Or.inr rfl))

/-- C16: the single wrap keeps the closed interval [0, 360] for bounded steps.
For every direction d in [0, 360] and every step delta with |delta| ≤ 360 the
direction after the station iteration is in [0, 360] and equals
d + delta + 360 * k for some k in {-1, 0, 1}; a larger step can leave the
interval: direction 0 with step -400 gives -40. -/
theorem C16_wrap_direccion_closed_interval (pow : ℚ → ℚ → ℚ) (estacion : Estacion)
    (copia : EstadoGlobal) (s : StationVars) (g : StationDraws)
    (h0 : 0 ≤ s.direccion_viento) (h1 : s.direccion_viento ≤ 360)
    (hd : |g.dir_delta| ≤ 360) :
    (0 ≤ (station_step pow estacion copia s g).vars.direccion_viento
      ∧ (station_step pow estacion copia s g).vars.direccion_viento ≤ 360)
    ∧ (∃ k : Int, (k = -1 ∨ k = 0 ∨ k = 1)
        ∧ (station_step pow estacion copia s g).vars.direccion_viento
            = s.direccion_viento + g.dir_delta + 360 * (k : ℚ))
    ∧ (station_step pow estacion copia ⟨20, 50, 5, 0, 0, 20⟩
          ⟨0, 0, 0, -400, 0⟩).vars.direccion_viento = -40 := by
  obtain ⟨hlo, hhi⟩ := abs_le.mp hd
  have key : ∀ (x : StationVars) (y : StationDraws),
      (station_step pow estacion copia x y).vars.direccion_viento
        = wrap_direccion x.direccion_viento y.dir_delta := fun _ _ => rfl
  rw [key, key]
  refine ⟨?_, ?_, by norm_num [wrap_direccion]⟩
  · unfold wrap_direccion
    dsimp only
    split_ifs <;> constructor <;> linarith
  · unfold wrap_direccion
    dsimp only
    split_ifs with ha hb hb
    · exact ⟨0, Or.inr (Or.inl rfl), by push_cast; ring⟩
    · exact ⟨1, Or.inr (Or.inr rfl), by push_cast; ring⟩
    · exact ⟨-1, Or.inl rfl, by push_cast; ring⟩
    · exact ⟨0, Or.inr (Or.inl rfl), by push_cast; ring⟩

/-- Witness for C16: direction 360 (the closed end), step -360. -/
theorem C16_wrap_direccion_closed_interval_witness :
    0 ≤ (station_step pow_nat ⟨3, "Girona", "Pre-Pirineo"⟩
          (MotorGlobal.snapshot motor_inicial)
          ⟨20, 50, 5, 360, 0, 20⟩ ⟨0, 0, 0, -360, 0⟩).vars.direccion_viento
    ∧ (station_step pow_nat ⟨3, "Girona", "Pre-Pirineo"⟩
          (MotorGlobal.snapshot motor_inicial)
          ⟨20, 50, 5, 360, 0, 20⟩ ⟨0, 0, 0, -360, 0⟩).vars.direccion_viento ≤ 360 :=
  (C16_wrap_direccion_closed_interval pow_nat ⟨3, "Girona", "Pre-Pirineo"⟩
    (MotorGlobal.snapshot motor_inicial) ⟨20, 50, 5, 360, 0, 20⟩ ⟨0, 0, 0, -360, 0⟩
    (by norm_num) (by norm_num) (by norm_num [abs_le])).1

/-- C17: the radiation is forced to 0 whenever the daylight factor is 0. For
every prior state and every draw, an engine iteration at an hour ≤ 6 or ≥ 18
(the ends 6 and 18 included) has daylight factor 0 and leaves the radiation at
0, and a station iteration on the snapshot of that state reports UV index 0. -/
theorem C17_radiacion_zero_at_night (motor : MotorGlobal) (hora mes : Int)
    (g : MotorDraws) (pow : ℚ → ℚ → ℚ) (estacion : Estacion) (s : StationVars)
    (sg : StationDraws) (hh : hora ≤ 6 ∨ 18 ≤ hora) :
    rad_dia hora = 0
    ∧ (motor_global_step motor hora mes g).radiacion = 0
    ∧ (station_step pow estacion
        (MotorGlobal.snapshot (motor_global_step motor hora mes g)) s sg).uv_index = 0 := by
  have hrad : rad_dia hora = 0 := by
    unfold rad_dia
    by_cases hx : hora ≥ 6 ∧ hora ≤ 18
    · rw [if_pos hx, std_max_eq]
      have h618 : hora = 6 ∨ hora = 18 := by omega
      rcases h618 with h | h <;> rw [h] <;> norm_num
    · rw [if_neg hx]
  have hr : (motor_global_step motor hora mes g).radiacion = 0 := by
    have e : (motor_global_step motor hora mes g).radiacion
        = clamp (motor.radiacion + g.solar_delta) 0 (1200 * rad_dia hora) := rfl
    rw [e, hrad, clamp_eq]
    norm_num
  refine ⟨hrad, hr, ?_⟩
  have e : (station_step pow estacion
      (MotorGlobal.snapshot (motor_global_step motor hora mes g)) s sg).uv_index
      = uv_index (motor_global_step motor hora mes g).radiacion := rfl
  rw [e, hr]
  unfold uv_index
  rw [clamp_eq]
  norm_num

/-- Witness for C17: an engine iteration at hour 18 from the initial state. -/
theorem C17_radiacion_zero_at_night_witness :
    (motor_global_step motor_inicial 18 7 ⟨0, 0, 25, 0.5, 0.5⟩).radiacion = 0
    ∧ (station_step pow_nat ⟨5, "Pirineos", "Alta Montaña"⟩
        (MotorGlobal.snapshot (motor_global_step motor_inicial 18 7 ⟨0, 0, 25, 0.5, 0.5⟩))
        ⟨20, 50, 5, 180, 0, 20⟩ ⟨0, 0, 0, 0, 0.5⟩).uv_index = 0 :=
  (C17_radiacion_zero_at_night motor_inicial 18 7 ⟨0, 0, 25, 0.5, 0.5⟩ pow_nat
    ⟨5, "Pirineos", "Alta Montaña"⟩ ⟨20, 50, 5, 180, 0, 20⟩ ⟨0, 0, 0, 0, 0.5⟩
    (Or.inr (le_refl _))).2

/-- C18: the humidity bias accumulates in the persistent station state. The
new humidity is clamp(old + step + bias, 20, 95) and is the old humidity of the
next iteration. For old humidity h in [20, 95]: when step + bias ≥ 0 the new
humidity is at least h, and is 95 when h + step + bias ≥ 95; when
step + bias ≤ 0 it is at most h, and is 20 when h + step + bias ≤ 20. Over any
run of iterations, with bias +10 and every step above -10 the humidity does
not fall and stays at 95 once there; with bias -10 and every step below 10 it
does not rise and stays at 20 once there. -/
theorem C18_humedad_bias_accumulates (pow : ℚ → ℚ → ℚ) (estacion : Estacion)
    (copia : EstadoGlobal) (s : StationVars) (g : StationDraws)
    (ticks : List (EstadoGlobal × StationDraws))
    (h20 : 20 ≤ s.humedad) (h95 : s.humedad ≤ 95) :
    (station_step pow estacion copia s g).vars.humedad
        = max 20 (min (s.humedad + g.hum_delta + ajuste_hum estacion.region) 95)
    ∧ (station_run pow estacion s ((copia, g) :: ticks)
        = station_run pow estacion (station_step pow estacion copia s g).vars ticks)
    ∧ (0 ≤ g.hum_delta + ajuste_hum estacion.region →
        s.humedad ≤ (station_step pow estacion copia s g).vars.humedad
        ∧ (95 ≤ s.humedad + g.hum_delta + ajuste_hum estacion.region →
            (station_step pow estacion copia s g).vars.humedad = 95))
    ∧ (g.hum_delta + ajuste_hum estacion.region ≤ 0 →
        (station_step pow estacion copia s g).vars.humedad ≤ s.humedad
        ∧ (s.humedad + g.hum_delta + ajuste_hum estacion.region ≤ 20 →
            (station_step pow estacion copia s g).vars.humedad = 20))
    ∧ (ajuste_hum estacion.region = 10 → (∀ t ∈ ticks, -10 < t.2.hum_delta) →
        s.humedad ≤ (station_run pow estacion s ticks).humedad
        ∧ (s.humedad = 95 → (station_run pow estacion s ticks).humedad = 95))
    ∧ (ajuste_hum estacion.region = -10 → (∀ t ∈ ticks, t.2.hum_delta < 10) →
        (station_run pow estacion s ticks).humedad ≤ s.humedad
        ∧ (s.humedad = 20 → (station_run pow estacion s ticks).humedad = 20)) := by
  have hstep := station_step_humedad pow estacion copia s g
  refine ⟨hstep, rfl, ?_, ?_, ?_, ?_⟩
  · intro hx
    rw [hstep]
    refine ⟨le_max_of_le_right (le_min (by linarith) h95), ?_⟩
    intro hsat
    rw [min_eq_right hsat]
    norm_num
  · intro hx
    rw [hstep]
    refine ⟨max_le h20 (le_trans (min_le_left _ _) (by linarith)), ?_⟩
    intro hsat
    have hmin : min (s.humedad + g.hum_delta + ajuste_hum estacion.region) 95
        = s.humedad + g.hum_delta + ajuste_hum estacion.region :=
      min_eq_left (by linarith)
    rw [hmin]
    exact max_eq_left hsat
  · intro hb hall
    have hall' : ∀ t ∈ ticks, 0 ≤ t.2.hum_delta + ajuste_hum estacion.region := by
      intro t ht
      have := hall t ht
      rw [hb]
      linarith
    have h := station_run_humedad_up pow estacion ticks s hall' h20 h95
    refine ⟨h.1, ?_⟩
    intro heq
    exact le_antisymm h.2 (by rw [← heq]; exact h.1)
  · intro hb hall
    have hall' : ∀ t ∈ ticks, t.2.hum_delta + ajuste_hum estacion.region ≤ 0 := by
      intro t ht
      have := hall t ht
      rw [hb]
      linarith
    have h := station_run_humedad_down pow estacion ticks s hall' h20 h95
    refine ⟨h.1, ?_⟩
    intro heq
    exact le_antisymm (by rw [← heq]; exact h.1) h.2

/-- Witness for C18: a coastal-urban station at humidity 95 with steps -3 and
-9 stays at 95 over two iterations. -/
theorem C18_humedad_bias_accumulates_witness :
    (station_run pow_nat ⟨1, "Barcelona", "Litoral Urbano"⟩ ⟨20, 95, 5, 180, 0, 20⟩
      [(MotorGlobal.snapshot motor_inicial, ⟨0, -3, 0, 0, 0.5⟩),
       (MotorGlobal.snapshot motor_inicial, ⟨0, -9, 0, 0, 0.5⟩)]).humedad = 95 :=
  ((C18_humedad_bias_accumulates pow_nat ⟨1, "Barcelona", "Litoral Urbano"⟩
    (MotorGlobal.snapshot motor_inicial) ⟨20, 95, 5, 180, 0, 20⟩ ⟨0, 0, 0, 0, 0⟩
    [(MotorGlobal.snapshot motor_inicial, ⟨0, -3, 0, 0, 0.5⟩),
     (MotorGlobal.snapshot motor_inicial, ⟨0, -9, 0, 0, 0.5⟩)]
    (by norm_num) (by norm_num)).2.2.2.2.1
    (by simp [ajuste_hum])
    (by intro t ht; simp at ht; rcases ht with h | h <;> rw [h] <;> norm_num)).2
    rfl

/-- C19: clamp(v, lo, hi) = max(lo, min(v, hi)). For lo ≤ hi the result is in
[lo, hi]; it equals v iff lo ≤ v ≤ hi, lo when v < lo, and hi when v > hi; it is
idempotent and monotone non-decreasing in v. For lo > hi it returns lo for
every v. -/
theorem C19_clamp_properties (v w lo hi : ℚ) :
    clamp v lo hi = max lo (min v hi)
    ∧ (lo ≤ hi →
        (lo ≤ clamp v lo hi ∧ clamp v lo hi ≤ hi)
        ∧ (clamp v lo hi = v ↔ (lo ≤ v ∧ v ≤ hi))
        ∧ (v < lo → clamp v lo hi = lo)
        ∧ (hi < v → clamp v lo hi = hi)
        ∧ clamp (clamp v lo hi) lo hi = clamp v lo hi
        ∧ (v ≤ w → clamp v lo hi ≤ clamp w lo hi))
    ∧ (hi < lo → clamp v lo hi = lo) := by
  refine ⟨clamp_eq v lo hi, ?_, ?_⟩
  · intro hle
    have hin : lo ≤ clamp v lo hi ∧ clamp v lo hi ≤ hi :=
      ⟨clamp_lower v lo hi, clamp_upper v lo hi hle⟩
    have hid : ∀ x : ℚ, lo ≤ x → x ≤ hi → clamp x lo hi = x := by
      intro x h1 h2
      rw [clamp_eq, min_eq_left h2, max_eq_right h1]
    refine ⟨hin, ?_, ?_, ?_, hid _ hin.1 hin.2, ?_⟩
    · constructor
      · intro h
        rw [← h]
        exact hin
      · rintro ⟨h1, h2⟩
        exact hid v h1 h2
    · intro h
      rw [clamp_eq, min_eq_left (by linarith), max_eq_left h.le]
    · intro h
      rw [clamp_eq, min_eq_right h.le, max_eq_right hle]
    · intro h
      rw [clamp_eq, clamp_eq]
      exact max_le_max (le_refl _) (min_le_min h (le_refl _))
  · intro h
    rw [clamp_eq]
    exact max_eq_left (le_trans (min_le_right _ _) h.le)

/-- Witness for C19: 7 clamped to [0, 5] is 5, and with the bounds swapped the
result is the lower bound 5. -/
theorem C19_clamp_properties_witness :
    clamp 7 0 5 = 5 ∧ clamp 7 5 0 = 5 :=
  ⟨((C19_clamp_properties 7 8 0 5).2.1 (by norm_num)).2.2.2.1 (by norm_num),
    (C19_clamp_properties 7 8 5 0).2.2 (by norm_num)⟩

end Publisher
